import Mathlib

/-!
Verification of `dm-data-outlier-injector` (src/main.py) against its
specification.

The program is a single-file pandas CLI.  Its core, `inject_outliers`,
validates its inputs, computes the target column's mean and sample
standard deviation, draws `num_outliers` values from a normal
distribution with location `mean` and scale `std * std_multiplier`,
and appends them as fresh rows with `pd.concat(..., ignore_index=True)`.
On any failure it logs an error and returns `None`.

Modelling choices:
* A pandas `DataFrame` is a `Table`: a column-name list, a per-column
  dtype (we track only the property the program inspects, numeric
  kind), a row-label index, and rows of cells.
* A cell is `na` (pandas NaN / missing), a rational number (modelling
  the float value exactly; the claims under scrutiny only depend on
  exact arithmetic in cases where IEEE arithmetic is itself exact,
  such as a constant column having standard deviation exactly 0), or
  a string.
* Scalar results of `.mean()` / `.std()` are `Option ℚ`, `none`
  modelling the NaN produced on an empty / too-short column.
* The process-global random source is an abstract stream
  `z : ℕ → ℚ` of standard-normal draws; `np.random.normal(loc, sc, n)`
  is the location-scale transform `loc + sc * z i`, with NaN in either
  parameter propagating to NaN, exactly as in numpy.
* The square root inside the standard deviation is modelled by
  `Rat.sqrt`.  It agrees with the real square root at `0` and on
  perfect squares — the only points at which any claim depends on the
  value of a square root; elsewhere only `std`'s presence (non-NaN)
  matters.
-/

/-- Kind of a pandas column dtype, at the granularity the program
inspects it: `pd.api.types.is_numeric_dtype` either holds (int/float
dtypes) or does not (object/text dtypes). -/
inductive Dtype where
  | numeric
  | nonNumeric
deriving DecidableEq

/-- One cell of a DataFrame: missing (NaN), a numeric value, or text. -/
inductive Cell where
  | na
  | num (q : ℚ)
  | str (s : String)
deriving DecidableEq

/-- A pandas DataFrame: named columns with dtypes, a row index, and the
rows themselves (one cell per column). -/
structure Table where
  cols : List String
  dtypes : List Dtype
  index : List Int
  rows : List (List Cell)
deriving DecidableEq

/-- Well-formedness of a loaded DataFrame: distinct column names, one
dtype per column, one index label per row, one cell per column in
every row. -/
def Table.WF (t : Table) : Prop :=
  t.cols.Nodup ∧ t.dtypes.length = t.cols.length ∧
    t.index.length = t.rows.length ∧ ∀ r ∈ t.rows, r.length = t.cols.length

instance (t : Table) : Decidable t.WF := by
  unfold Table.WF; infer_instance

/-- The positional index of column `c` (pandas locates a label by its
first occurrence). -/
def Table.colIdx (t : Table) (c : String) : ℕ := t.cols.indexOf c

/-- The cell of `row` belonging to column `c` of table `t`
(`df.loc[i, c]`). -/
def Table.rowCell (t : Table) (c : String) (row : List Cell) : Cell :=
  row.getD (t.colIdx c) Cell.na

/-- The Series `df[c]`: the cells of column `c`, row by row. -/
def Table.colVals (t : Table) (c : String) : List Cell :=
  t.rows.map (fun r => t.rowCell c r)

/-- The dtype of column `c` (`df[c].dtype`). -/
def Table.colDtype (t : Table) (c : String) : Dtype :=
  t.dtypes.getD (t.colIdx c) Dtype.nonNumeric

/-- The non-missing numeric values of a Series, in order; pandas
reductions (`.mean()`, `.std()`) skip NaN entries. -/
def numericVals (cells : List Cell) : List ℚ :=
  cells.filterMap (fun cl => match cl with | Cell.num q => some q | _ => none)

/-- `Series.mean()`: arithmetic mean of the non-missing values, NaN
(`none`) when there are none. -/
def seriesMean (cells : List Cell) : Option ℚ :=
  let v := numericVals cells
  if v.length = 0 then none else some (v.sum / (v.length : ℚ))

/-- `Series.std()` with the pandas default `ddof = 1`: square root of
`Σ (x - mean)² / (count - 1)` over the non-missing values, NaN
(`none`) when fewer than two are present.  `Rat.sqrt` models the float
square root (exact at 0 and on perfect squares, which is all any
theorem below depends on). -/
def seriesStd (cells : List Cell) : Option ℚ :=
  let v := numericVals cells
  if v.length ≤ 1 then none
  else
    let mu := v.sum / (v.length : ℚ)
    some (Rat.sqrt ((v.map (fun x => (x - mu) ^ 2)).sum / ((v.length : ℚ) - 1)))

/-- `np.random.normal(loc, scale, n)` under the abstract standard-normal
stream `z`: the `i`-th draw is `loc + scale * z i`; a NaN location or
scale yields NaN draws, as in numpy. -/
def npRandomNormal (loc scale : Option ℚ) (n : ℕ) (z : ℕ → ℚ) : List Cell :=
  (List.range n).map (fun i =>
    match loc, scale with
    | some l, some s => Cell.num (l + s * z i)
    | _, _ => Cell.na)

/-- `pd.concat([df, pd.DataFrame({c: vals})], ignore_index=True)`:
columns are the outer union in order of first appearance; existing rows
keep their order (padded with NaN if `c` is new); each value in `vals`
becomes a row holding that value in column `c` and NaN everywhere
else; the result is reindexed `0, 1, 2, …`.  Appending NaN rows can
widen an int column to float but never changes whether a dtype is
numeric, which is the only dtype property tracked. -/
def pdConcatNewRows (t : Table) (c : String) (vals : List Cell) : Table :=
  let newCols := if c ∈ t.cols then t.cols else t.cols ++ [c]
  { cols := newCols
    dtypes := if c ∈ t.cols then t.dtypes else t.dtypes ++ [Dtype.numeric]
    index := (List.range (t.rows.length + vals.length)).map Int.ofNat
    rows := t.rows.map (fun r => if c ∈ t.cols then r else r ++ [Cell.na]) ++
      vals.map (fun v => newCols.map (fun c2 => if c2 = c then v else Cell.na)) }

/-- The error raised by each `raise` site of `inject_outliers`
(lines 41–50 of src/main.py); the constructor records the payload that
appears in the exception's message. -/
inductive InjectErr where
  | notDataFrame
  | columnNotFound (c : String)
  | nonNumericColumn (c : String)
  | invalidCount
  | invalidMultiplier
deriving DecidableEq

/-- The message of each raised exception, exactly as formatted at the
`raise` site. -/
def errMessage : InjectErr → String
  | InjectErr.notDataFrame => "Input must be a Pandas DataFrame."
  | InjectErr.columnNotFound c =>
      "Column \x27" ++ c ++ "\x27 not found in DataFrame."
  | InjectErr.nonNumericColumn c =>
      "Column \x27" ++ c ++ "\x27 must be numeric."
  | InjectErr.invalidCount => "Number of outliers must be non-negative."
  | InjectErr.invalidMultiplier =>
      "Standard deviation multiplier must be positive."

/-- The first argument of `inject_outliers` as a Python value: either an
actual DataFrame or anything else (rejected by the `isinstance`
check). -/
inductive PyInput where
  | df (t : Table)
  | notDF
deriving DecidableEq

/-- The validation prefix of `inject_outliers` (src/main.py lines
41–50), in source order: DataFrame type, column membership, numeric
dtype, `num_outliers < 0`, `std_multiplier <= 0`.  The first failing
check raises; a passing run hands the DataFrame on. -/
def validateInputs (x : PyInput) (c : String) (n : ℤ) (m : ℚ) :
    Except InjectErr Table :=
  match x with
  | PyInput.notDF => Except.error InjectErr.notDataFrame
  | PyInput.df t =>
    if c ∉ t.cols then Except.error (InjectErr.columnNotFound c)
    else if t.colDtype c ≠ Dtype.numeric then
      Except.error (InjectErr.nonNumericColumn c)
    else if n < 0 then Except.error InjectErr.invalidCount
    else if m ≤ 0 then Except.error InjectErr.invalidMultiplier
    else Except.ok t

/-- The generated outlier batch (src/main.py lines 52–57):
`np.random.normal(df[c].mean(), df[c].std() * std_multiplier, n)`. -/
def genOutliers (t : Table) (c : String) (m : ℚ) (n : ℕ) (z : ℕ → ℚ) :
    List Cell :=
  npRandomNormal (seriesMean (t.colVals c))
    ((seriesStd (t.colVals c)).map (fun s => s * m)) n z

/-- The body of `inject_outliers` up to and including the `return df`
(lines 39–63): validate, compute statistics, draw, concatenate.  The
error value is the exception that the `try` block raises; a negative
`num_outliers` never reaches the draw, so `Int.toNat` is exact on
every non-error path. -/
def injectResult (x : PyInput) (c : String) (n : ℤ) (m : ℚ) (z : ℕ → ℚ) :
    Except InjectErr Table :=
  match validateInputs x c n m with
  | Except.error e => Except.error e
  | Except.ok t => Except.ok (pdConcatNewRows t c (genOutliers t c m n.toNat z))

/-- The whole of `inject_outliers` (lines 26–70), as the caller sees it:
the `except` clauses catch every raised validation error, log
`"Error injecting outliers: …"`, and return `None`; a successful run
logs the info line and returns the new DataFrame.  The first component
is the returned value, the second the emitted log lines. -/
def injectOutliers (x : PyInput) (c : String) (n : ℤ) (m : ℚ) (z : ℕ → ℚ) :
    Option Table × List String :=
  match injectResult x c n m z with
  | Except.ok t =>
      (some t,
        ["Successfully injected " ++ toString n ++ " outliers into column \x27"
          ++ c ++ "\x27."])
  | Except.error e => (none, ["Error injecting outliers: " ++ errMessage e])

/-- The caller's view of a call to `inject_outliers` on a DataFrame it
owns: the pair (call result, the caller's DataFrame after the call).
Every pandas operation the body performs — `df.columns`, `df[c]`,
`.mean()`, `.std()`, `pd.concat` — returns a new object without
modifying its argument, and `df = pd.concat(...)` only rebinds the
local name, so the caller's frame is passed through unchanged. -/
def injectOutliersCallerView (t : Table) (c : String) (n : ℤ) (m : ℚ)
    (z : ℕ → ℚ) : (Option Table × List String) × Table :=
  (injectOutliers (PyInput.df t) c n m z, t)

/-- Outcome of `pd.read_csv(input_file)` in `main` (src/main.py line
82): success, or one of the exceptions `main` catches
(`FileNotFoundError`, `EmptyDataError`, `ParserError`), or any other
exception (`except Exception`). -/
inductive LoadResult where
  | ok (t : Table)
  | notFound
  | empty
  | parseError
  | otherError
deriving DecidableEq

/-- Outcome of `df_with_outliers.to_csv(output_file)` (line 89):
success, or an exception caught by the final `except Exception`. -/
inductive WriteResult where
  | ok
  | writeError
deriving DecidableEq

/-- The observable outcome of one run of `main`: the process exit code
(`sys.exit(1)` on each failure path, fall-through exit 0 on success)
and whether the write of the output file was ever started — before
`to_csv` is reached the output path is untouched. -/
structure RunOutcome where
  exitCode : ℕ
  writeStarted : Bool
deriving DecidableEq

/-- `main` (src/main.py lines 73–106) after argument parsing: load the
input, inject, and write.  A `None` from `inject_outliers` logs and
exits 1 without touching the output file; each load exception exits 1
before the write; a write exception is caught by `except Exception`
and exits 1; otherwise the process finishes with exit code 0. -/
def mainRun (load : LoadResult) (c : String) (n : ℤ) (m : ℚ) (z : ℕ → ℚ)
    (w : WriteResult) : RunOutcome :=
  match load with
  | LoadResult.notFound => { exitCode := 1, writeStarted := false }
  | LoadResult.empty => { exitCode := 1, writeStarted := false }
  | LoadResult.parseError => { exitCode := 1, writeStarted := false }
  | LoadResult.otherError => { exitCode := 1, writeStarted := false }
  | LoadResult.ok t =>
    match (injectOutliers (PyInput.df t) c n m z).1 with
    | none => { exitCode := 1, writeStarted := false }
    | some _ =>
      match w with
      | WriteResult.ok => { exitCode := 0, writeStarted := true }
      | WriteResult.writeError => { exitCode := 1, writeStarted := true }

/-- Modelled from the spec (§4.1, step 1, the spec's own wording for
comparison with the pandas embedding): the arithmetic mean of the
non-missing values, undefined on an empty list. -/
def specArithMean (xs : List ℚ) : Option ℚ :=
  if xs = [] then none else some (xs.sum / (xs.length : ℚ))

/-- Modelled from the spec (§4.1, step 1): the sample standard
deviation with denominator N − 1, undefined on fewer than two values,
with the same `Rat.sqrt` model of the float square root. -/
def specSampleStd (xs : List ℚ) : Option ℚ :=
  if xs.length < 2 then none
  else
    some (Rat.sqrt
      (((xs.map (fun x => (x - xs.sum / (xs.length : ℚ)) ^ 2)).sum) /
        ((xs.length : ℚ) - 1)))

/-- Modelled from the spec (§4.1, step 2): one draw from a normal
distribution with location `loc` and scale `scale`, as the
location-scale transform of a standard-normal draw `zi`; an undefined
location or scale gives an undefined (NaN) draw. -/
def specNormalDraw (loc scale : Option ℚ) (zi : ℚ) : Cell :=
  match loc, scale with
  | some l, some s => Cell.num (l + s * zi)
  | _, _ => Cell.na

/-! ### Sample data for witnesses -/

/-- A three-row table with a numeric column `x` and a text column `y`. -/
def tblA : Table :=
  { cols := ["x", "y"]
    dtypes := [Dtype.numeric, Dtype.nonNumeric]
    index := [0, 1, 2]
    rows := [[Cell.num 1, Cell.str "a"], [Cell.num 2, Cell.str "b"],
      [Cell.num 3, Cell.str "c"]] }

/-- A constant numeric column `x = [5, 5, 5]` (sample std exactly 0). -/
def tblConst : Table :=
  { cols := ["x"]
    dtypes := [Dtype.numeric]
    index := [0, 1, 2]
    rows := [[Cell.num 5], [Cell.num 5], [Cell.num 5]] }

/-- A numeric column with a single non-missing value (sample std NaN). -/
def tblShort : Table :=
  { cols := ["x"]
    dtypes := [Dtype.numeric]
    index := [0, 1]
    rows := [[Cell.num 7], [Cell.na]] }

/-- A fixed stand-in for the standard-normal stream. -/
def zStream : ℕ → ℚ := fun i => (i : ℚ) + 1

/-! ### Helper lemmas -/

lemma validateInputs_ok (t : Table) (c : String) (n : ℤ) (m : ℚ)
    (h1 : c ∈ t.cols) (h2 : t.colDtype c = Dtype.numeric) (h3 : 0 ≤ n)
    (h4 : 0 < m) : validateInputs (PyInput.df t) c n m = Except.ok t := by
  simp [validateInputs, h1, h2, not_lt.mpr h3, not_le.mpr h4]

lemma injectResult_ok (t : Table) (c : String) (n : ℤ) (m : ℚ) (z : ℕ → ℚ)
    (h1 : c ∈ t.cols) (h2 : t.colDtype c = Dtype.numeric) (h3 : 0 ≤ n)
    (h4 : 0 < m) :
    injectResult (PyInput.df t) c n m z =
      Except.ok (pdConcatNewRows t c (genOutliers t c m n.toNat z)) := by
  simp [injectResult, validateInputs_ok t c n m h1 h2 h3 h4]

lemma pdConcat_cols {t : Table} {c : String} (h : c ∈ t.cols)
    (vals : List Cell) : (pdConcatNewRows t c vals).cols = t.cols := by
  simp [pdConcatNewRows, h]

lemma pdConcat_dtypes {t : Table} {c : String} (h : c ∈ t.cols)
    (vals : List Cell) : (pdConcatNewRows t c vals).dtypes = t.dtypes := by
  simp [pdConcatNewRows, h]

lemma pdConcat_rows {t : Table} {c : String} (h : c ∈ t.cols)
    (vals : List Cell) :
    (pdConcatNewRows t c vals).rows =
      t.rows ++ vals.map (fun v =>
        t.cols.map (fun c2 => if c2 = c then v else Cell.na)) := by
  simp [pdConcatNewRows, h]

lemma pdConcat_index (t : Table) (c : String) (vals : List Cell) :
    (pdConcatNewRows t c vals).index =
      (List.range (t.rows.length + vals.length)).map Int.ofNat := rfl

lemma pdConcat_rows_length (t : Table) (c : String) (vals : List Cell) :
    (pdConcatNewRows t c vals).rows.length =
      t.rows.length + vals.length := by
  simp [pdConcatNewRows]

lemma genOutliers_length (t : Table) (c : String) (m : ℚ) (n : ℕ)
    (z : ℕ → ℚ) : (genOutliers t c m n z).length = n := by
  simp [genOutliers, npRandomNormal]

lemma rowCell_map_cols (t : Table) {c2 : String}
    (f : String → Cell) (h : c2 ∈ t.cols) :
    t.rowCell c2 (t.cols.map f) = f c2 := by
  have hlt : t.cols.indexOf c2 < t.cols.length := List.indexOf_lt_length.mpr h
  rw [Table.rowCell, Table.colIdx, List.getD_eq_getElem _ _ (by simpa using hlt)]
  simp only [List.getElem_map]
  congr 1
  exact List.indexOf_get hlt

lemma rowCell_congr {r t : Table} (h : r.cols = t.cols) (c : String)
    (row : List Cell) : r.rowCell c row = t.rowCell c row := by
  simp [Table.rowCell, Table.colIdx, h]

lemma pdConcat_new_row_cell (t : Table) {c c2 : String} (h1 : c ∈ t.cols)
    (hc2 : c2 ∈ t.cols) (vals : List Cell) (j : ℕ) (hj : j < vals.length) :
    (pdConcatNewRows t c vals).rowCell c2
        ((pdConcatNewRows t c vals).rows.getD (t.rows.length + j) []) =
      if c2 = c then vals.getD j Cell.na else Cell.na := by
  rw [rowCell_congr (pdConcat_cols h1 vals), pdConcat_rows h1,
    List.getD_append_right _ _ _ _ (Nat.le_add_right _ _)]
  have hj2 : j < (vals.map (fun v =>
      t.cols.map (fun x => if x = c then v else Cell.na))).length := by
    simpa using hj
  rw [Nat.add_sub_cancel_left, List.getD_eq_getElem _ _ hj2,
    List.getElem_map, rowCell_map_cols t _ hc2, List.getD_eq_getElem _ _ hj]

lemma seriesStd_none_of_short {cells : List Cell}
    (h : (numericVals cells).length < 2) : seriesStd cells = none := by
  have : (numericVals cells).length ≤ 1 := Nat.lt_succ_iff.mp h
  simp [seriesStd, this]

lemma range_map_getD (f : ℕ → Cell) (n j : ℕ) (d : Cell) (hj : j < n) :
    ((List.range n).map f).getD j d = f j := by
  rw [List.getD_eq_getElem _ _ (by simpa using hj)]
  simp

lemma genOutliers_getD (t : Table) (c : String) (m : ℚ) (n : ℕ) (z : ℕ → ℚ)
    (j : ℕ) (hj : j < n) :
    (genOutliers t c m n z).getD j Cell.na =
      specNormalDraw (seriesMean (t.colVals c))
        ((seriesStd (t.colVals c)).map (fun s => s * m)) (z j) := by
  rw [genOutliers, npRandomNormal, range_map_getD _ _ _ _ hj]
  cases seriesMean (t.colVals c) <;>
    cases seriesStd (t.colVals c) <;> rfl

lemma seriesMean_eq_spec (cells : List Cell) :
    seriesMean cells = specArithMean (numericVals cells) := by
  simp [seriesMean, specArithMean, List.length_eq_zero]

lemma seriesStd_eq_spec (cells : List Cell) :
    seriesStd cells = specSampleStd (numericVals cells) := by
  simp [seriesStd, specSampleStd, Nat.lt_succ_iff]

/-! ### Claim theorems -/

/-- C1: for every valid table and valid parameters (`column_name`
present with numeric kind, `num_outliers ≥ 0`, `std_multiplier > 0`),
`inject_outliers` succeeds and returns a table whose row count is the
original row count plus `num_outliers` and whose column list (hence
column set) is unchanged. -/
theorem inject_shape_valid (t : Table) (c : String) (n : ℤ) (m : ℚ)
    (z : ℕ → ℚ) (h1 : c ∈ t.cols) (h2 : t.colDtype c = Dtype.numeric)
    (h3 : 0 ≤ n) (h4 : 0 < m) :
    ∃ r, injectResult (PyInput.df t) c n m z = Except.ok r ∧
      (r.rows.length : ℤ) = t.rows.length + n ∧ r.cols = t.cols := by
  refine ⟨_, injectResult_ok t c n m z h1 h2 h3 h4, ?_, pdConcat_cols h1 _⟩
  rw [pdConcat_rows_length, genOutliers_length]
  push_cast [Int.toNat_of_nonneg h3]
  ring

/-- C1 witness: three rows, two injected, columns preserved. -/
theorem inject_shape_valid_witness :
    ∃ r, injectResult (PyInput.df tblA) "x" 2 1 zStream = Except.ok r ∧
      (r.rows.length : ℤ) = tblA.rows.length + 2 ∧ r.cols = tblA.cols :=
  inject_shape_valid tblA "x" 2 1 zStream (by decide) (by decide) (by decide)
    (by norm_num)

/-- C3: whenever `column_name` is absent from the table's columns,
`inject_outliers` fails with the ColumnNotFound error, whatever the
values of `num_outliers` and `std_multiplier` — the membership check
(line 43) precedes the count and multiplier checks (lines 47, 49), so
the first failing check determines the reported error. -/
theorem inject_missing_column (t : Table) (c : String) (n : ℤ) (m : ℚ)
    (z : ℕ → ℚ) (h : c ∉ t.cols) :
    injectResult (PyInput.df t) c n m z =
      Except.error (InjectErr.columnNotFound c) := by
  simp [injectResult, validateInputs, h]

/-- C3 witness: the column is absent while `num_outliers = -1` and
`std_multiplier = 0` are both also invalid; ColumnNotFound still wins. -/
theorem inject_missing_column_witness :
    injectResult (PyInput.df tblA) "zz" (-1) 0 zStream =
      Except.error (InjectErr.columnNotFound "zz") :=
  inject_missing_column tblA "zz" (-1) 0 zStream (by decide)

/-- C4: on a valid table and valid numeric column, injecting zero
outliers returns a table row-for-row identical to the input — the same
rows in the same order, with the same columns and dtypes (only the
positional index is freshly renumbered by the no-op concatenation). -/
theorem inject_zero_identity (t : Table) (c : String) (m : ℚ) (z : ℕ → ℚ)
    (h1 : c ∈ t.cols) (h2 : t.colDtype c = Dtype.numeric) (h4 : 0 < m) :
    ∃ r, injectResult (PyInput.df t) c 0 m z = Except.ok r ∧
      r.rows = t.rows ∧ r.cols = t.cols ∧ r.dtypes = t.dtypes := by
  refine ⟨_, injectResult_ok t c 0 m z h1 h2 le_rfl h4, ?_,
    pdConcat_cols h1 _, pdConcat_dtypes h1 _⟩
  rw [pdConcat_rows h1]
  simp [genOutliers, npRandomNormal]

/-- C4 witness: zero injected outliers leave the three rows of the
sample table untouched. -/
theorem inject_zero_identity_witness :
    ∃ r, injectResult (PyInput.df tblA) "x" 0 (3 / 2) zStream = Except.ok r ∧
      r.rows = tblA.rows ∧ r.cols = tblA.cols ∧ r.dtypes = tblA.dtypes :=
  inject_zero_identity tblA "x" (3 / 2) zStream (by decide) (by decide)
    (by norm_num)

/-- C8: on any table with a valid numeric column, `num_outliers = -1`
fails with InvalidCount for every multiplier (the count check at line
47 precedes the multiplier check), and any `std_multiplier ≤ 0` —
in particular 0 and -2.5 — fails with InvalidMultiplier once the count
is non-negative. -/
theorem inject_invalid_count_multiplier (t : Table) (c : String) (n : ℤ)
    (m : ℚ) (z : ℕ → ℚ) (h1 : c ∈ t.cols)
    (h2 : t.colDtype c = Dtype.numeric) :
    (∀ m2 : ℚ, injectResult (PyInput.df t) c (-1) m2 z =
      Except.error InjectErr.invalidCount) ∧
    (0 ≤ n → m ≤ 0 → injectResult (PyInput.df t) c n m z =
      Except.error InjectErr.invalidMultiplier) := by
  constructor
  · intro m2
    simp [injectResult, validateInputs, h1, h2]
  · intro h3 h5
    simp [injectResult, validateInputs, h1, h2, not_lt.mpr h3, h5]

/-- C8 witness: `num_outliers = -1` with multiplier -2.5 reports
InvalidCount; count 0 with multiplier 0 reports InvalidMultiplier. -/
theorem inject_invalid_count_multiplier_witness :
    injectResult (PyInput.df tblA) "x" (-1) (-5 / 2) zStream =
      Except.error InjectErr.invalidCount ∧
    injectResult (PyInput.df tblA) "x" 0 0 zStream =
      Except.error InjectErr.invalidMultiplier :=
  ⟨(inject_invalid_count_multiplier tblA "x" 0 0 zStream (by decide)
      (by decide)).1 (-5 / 2),
    (inject_invalid_count_multiplier tblA "x" 0 0 zStream (by decide)
      (by decide)).2 le_rfl le_rfl⟩

/-- C6: on a successful injection the original rows come first in
their original order, the table grows by exactly `num_outliers` rows,
the combined table is renumbered with fresh sequential positional
indices, and each injected row carries one sampled value in
`column_name` while every other column of that row is missing. -/
theorem inject_append_structure (t : Table) (c : String) (n : ℤ) (m : ℚ)
    (z : ℕ → ℚ) (h1 : c ∈ t.cols) (h2 : t.colDtype c = Dtype.numeric)
    (h3 : 0 ≤ n) (h4 : 0 < m) :
    ∃ r, injectResult (PyInput.df t) c n m z = Except.ok r ∧
      r.rows.take t.rows.length = t.rows ∧
      r.rows.length = t.rows.length + n.toNat ∧
      r.index = (List.range (t.rows.length + n.toNat)).map Int.ofNat ∧
      ∀ j, j < n.toNat →
        (r.rowCell c (r.rows.getD (t.rows.length + j) []) =
            (genOutliers t c m n.toNat z).getD j Cell.na ∧
          ∀ c2 ∈ t.cols, c2 ≠ c →
            r.rowCell c2 (r.rows.getD (t.rows.length + j) []) = Cell.na) := by
  refine ⟨_, injectResult_ok t c n m z h1 h2 h3 h4, ?_, ?_, ?_, ?_⟩
  · rw [pdConcat_rows h1]
    exact List.take_left t.rows _
  · rw [pdConcat_rows_length, genOutliers_length]
  · rw [pdConcat_index, genOutliers_length]
  · intro j hj
    have hj2 : j < (genOutliers t c m n.toNat z).length := by
      rwa [genOutliers_length]
    constructor
    · rw [pdConcat_new_row_cell t h1 h1 _ j hj2, if_pos rfl]
    · intro c2 hc2 hne
      rw [pdConcat_new_row_cell t h1 hc2 _ j hj2, if_neg hne]

/-- C6 witness: two outliers injected into the three-row sample table;
the original rows lead, the index is 0..4, the injected rows hold the
sampled `x` value and a missing `y`. -/
theorem inject_append_structure_witness :
    ∃ r, injectResult (PyInput.df tblA) "x" 2 1 zStream = Except.ok r ∧
      r.rows.take tblA.rows.length = tblA.rows ∧
      r.rows.length = tblA.rows.length + (2 : ℤ).toNat ∧
      r.index = (List.range (tblA.rows.length + (2 : ℤ).toNat)).map
        Int.ofNat ∧
      ∀ j, j < (2 : ℤ).toNat →
        (r.rowCell "x" (r.rows.getD (tblA.rows.length + j) []) =
            (genOutliers tblA "x" 1 (2 : ℤ).toNat zStream).getD j Cell.na ∧
          ∀ c2 ∈ tblA.cols, c2 ≠ "x" →
            r.rowCell c2 (r.rows.getD (tblA.rows.length + j) []) =
              Cell.na) :=
  inject_append_structure tblA "x" 2 1 zStream (by decide) (by decide)
    (by decide) (by norm_num)

/-- C5: for valid parameters, when the target column's sample standard
deviation is exactly 0 every injected value is exactly the column
mean, deterministically — whatever the random stream holds; and when
the standard deviation is undefined (fewer than two non-missing
values), every injected value is missing (NaN).  Neither degenerate
case is turned into an error. -/
theorem inject_degenerate_scale (t : Table) (c : String) (n : ℤ) (m : ℚ)
    (z : ℕ → ℚ) (h1 : c ∈ t.cols) (h2 : t.colDtype c = Dtype.numeric)
    (h3 : 0 ≤ n) (h4 : 0 < m) :
    (∀ l : ℚ, seriesStd (t.colVals c) = some 0 →
      seriesMean (t.colVals c) = some l →
      ∃ r, injectResult (PyInput.df t) c n m z = Except.ok r ∧
        ∀ j, j < n.toNat →
          r.rowCell c (r.rows.getD (t.rows.length + j) []) = Cell.num l) ∧
    ((numericVals (t.colVals c)).length < 2 →
      ∃ r, injectResult (PyInput.df t) c n m z = Except.ok r ∧
        ∀ j, j < n.toNat →
          r.rowCell c (r.rows.getD (t.rows.length + j) []) = Cell.na) := by
  constructor
  · intro l hstd hmean
    refine ⟨_, injectResult_ok t c n m z h1 h2 h3 h4, ?_⟩
    intro j hj
    have hj2 : j < (genOutliers t c m n.toNat z).length := by
      rwa [genOutliers_length]
    rw [pdConcat_new_row_cell t h1 h1 _ j hj2, if_pos rfl,
      genOutliers_getD t c m n.toNat z j (by rwa [genOutliers_length] at hj2),
      hstd, hmean]
    simp [specNormalDraw]
  · intro hshort
    refine ⟨_, injectResult_ok t c n m z h1 h2 h3 h4, ?_⟩
    intro j hj
    have hj2 : j < (genOutliers t c m n.toNat z).length := by
      rwa [genOutliers_length]
    rw [pdConcat_new_row_cell t h1 h1 _ j hj2, if_pos rfl,
      genOutliers_getD t c m n.toNat z j (by rwa [genOutliers_length] at hj2),
      seriesStd_none_of_short hshort]
    cases seriesMean (t.colVals c) <;> rfl

/-- C5 witness: injecting 3 outliers into the constant column
`x = [5, 5, 5]` (std exactly 0) produces the exact value 5 in every
injected row, and injecting 2 outliers into a column with one
non-missing value (std NaN) produces missing values. -/
theorem inject_degenerate_scale_witness :
    (∃ r, injectResult (PyInput.df tblConst) "x" 3 2 zStream =
        Except.ok r ∧
      ∀ j, j < (3 : ℤ).toNat →
        r.rowCell "x" (r.rows.getD (tblConst.rows.length + j) []) =
          Cell.num 5) ∧
    (∃ r, injectResult (PyInput.df tblShort) "x" 2 2 zStream =
        Except.ok r ∧
      ∀ j, j < (2 : ℤ).toNat →
        r.rowCell "x" (r.rows.getD (tblShort.rows.length + j) []) =
          Cell.na) := by
  constructor
  · have hv : numericVals (tblConst.colVals "x") = [5, 5, 5] := rfl
    refine (inject_degenerate_scale tblConst "x" 3 2 zStream (by decide)
      (by decide) (by decide) (by norm_num)).1 5 ?_ ?_
    · simp only [seriesStd, hv]
      norm_num
    · simp only [seriesMean, hv]
      norm_num
  · exact (inject_degenerate_scale tblShort "x" 2 2 zStream (by decide)
      (by decide) (by decide) (by norm_num)).2 (by decide)

/-- C7: on every successful injection, the `j`-th injected value is a
normal draw with location the arithmetic mean of the column's
non-missing values and scale (sample standard deviation with
denominator N−1) × `std_multiplier`, each draw consuming its own
entry of the standard-normal stream — exactly the generator the spec
prescribes, stated against independently spec-modelled statistics. -/
theorem inject_normal_model (t : Table) (c : String) (n : ℤ) (m : ℚ)
    (z : ℕ → ℚ) (h1 : c ∈ t.cols) (h2 : t.colDtype c = Dtype.numeric)
    (h3 : 0 ≤ n) (h4 : 0 < m) :
    ∃ r, injectResult (PyInput.df t) c n m z = Except.ok r ∧
      ∀ j, j < n.toNat →
        r.rowCell c (r.rows.getD (t.rows.length + j) []) =
          specNormalDraw (specArithMean (numericVals (t.colVals c)))
            ((specSampleStd (numericVals (t.colVals c))).map
              (fun s => s * m)) (z j) := by
  refine ⟨_, injectResult_ok t c n m z h1 h2 h3 h4, ?_⟩
  intro j hj
  have hj2 : j < (genOutliers t c m n.toNat z).length := by
    rwa [genOutliers_length]
  rw [pdConcat_new_row_cell t h1 h1 _ j hj2, if_pos rfl,
    genOutliers_getD t c m n.toNat z j (by rwa [genOutliers_length] at hj2),
    seriesMean_eq_spec, seriesStd_eq_spec]

/-- C7 witness: two draws over the sample table follow the
location-scale normal model built from the spec-modelled mean and
sample standard deviation. -/
theorem inject_normal_model_witness :
    ∃ r, injectResult (PyInput.df tblA) "x" 2 (3 / 2) zStream =
        Except.ok r ∧
      ∀ j, j < (2 : ℤ).toNat →
        r.rowCell "x" (r.rows.getD (tblA.rows.length + j) []) =
          specNormalDraw (specArithMean (numericVals (tblA.colVals "x")))
            ((specSampleStd (numericVals (tblA.colVals "x"))).map
              (fun s => s * (3 / 2))) (zStream j) :=
  inject_normal_model tblA "x" 2 (3 / 2) zStream (by decide) (by decide)
    (by decide) (by norm_num)

/-- C2 counterexample: two validation failures of different kinds — a
missing column and a negative outlier count — both hand the caller the
very same `None` sentinel; the kind lives only in the raised-then-
caught exception, never in the returned value, refuting the claim that
the caller receives an error value distinguishable by kind. -/
theorem inject_sentinel_indistinguishable :
    (injectOutliers (PyInput.df tblA) "zz" 3 2 zStream).1 = none ∧
    (injectOutliers (PyInput.df tblA) "x" (-1) 2 zStream).1 = none ∧
    (injectOutliers (PyInput.df tblA) "zz" 3 2 zStream).1 =
      (injectOutliers (PyInput.df tblA) "x" (-1) 2 zStream).1 ∧
    injectResult (PyInput.df tblA) "zz" 3 2 zStream =
      Except.error (InjectErr.columnNotFound "zz") ∧
    injectResult (PyInput.df tblA) "x" (-1) 2 zStream =
      Except.error InjectErr.invalidCount := by
  exact ⟨by decide, by decide, by decide, rfl, rfl⟩

/-- C2 as amended: on every validation failure `inject_outliers` logs
one error line carrying the failing check's message and returns the
`None` sentinel to its caller — the same `None` for every failure
kind; the kind is distinguishable only in the logged text. -/
theorem inject_failure_logs_and_returns_none (x : PyInput) (c : String)
    (n : ℤ) (m : ℚ) (z : ℕ → ℚ) (e : InjectErr)
    (h : validateInputs x c n m = Except.error e) :
    injectOutliers x c n m z =
      (none, ["Error injecting outliers: " ++ errMessage e]) := by
  simp [injectOutliers, injectResult, h]

/-- Witness for the amended C2: the missing-column failure returns
`None` and logs the ColumnNotFound message. -/
theorem inject_failure_logs_and_returns_none_witness :
    injectOutliers (PyInput.df tblA) "zz" 1 1 zStream =
      (none, ["Error injecting outliers: "
        ++ errMessage (InjectErr.columnNotFound "zz")]) :=
  inject_failure_logs_and_returns_none (PyInput.df tblA) "zz" 1 1 zStream
    (InjectErr.columnNotFound "zz") rfl

/-- C9: the CLI exits 0 exactly when the load, the injection, and the
write all succeed; every failure — missing file, empty or unparseable
input, any injector validation failure, or any unexpected error —
exits 1; and the write of the output file is only ever started once
both the load and the injection have succeeded, so no failure before
the write step touches the output file. -/
theorem main_exit_codes (load : LoadResult) (c : String) (n : ℤ) (m : ℚ)
    (z : ℕ → ℚ) (w : WriteResult) :
    ((mainRun load c n m z w).exitCode = 0 ↔
      ((∃ t, load = LoadResult.ok t ∧
        (injectOutliers (PyInput.df t) c n m z).1.isSome) ∧
        w = WriteResult.ok)) ∧
    ((mainRun load c n m z w).exitCode = 0 ∨
      (mainRun load c n m z w).exitCode = 1) ∧
    ((mainRun load c n m z w).writeStarted = true →
      ∃ t, load = LoadResult.ok t ∧
        (injectOutliers (PyInput.df t) c n m z).1.isSome) := by
  cases load with
  | ok t =>
    cases hi : (injectOutliers (PyInput.df t) c n m z).1 with
    | none => cases w <;> simp [mainRun, hi]
    | some r => cases w <;> simp [mainRun, hi]
  | notFound => cases w <;> simp [mainRun]
  | empty => cases w <;> simp [mainRun]
  | parseError => cases w <;> simp [mainRun]
  | otherError => cases w <;> simp [mainRun]

/-- C9 witness: with a loadable table, a valid request, and a clean
write, the run exits 0 and the write step is reached only because load
and injection both succeeded. -/
theorem main_exit_codes_witness :
    ((mainRun (LoadResult.ok tblConst) "x" 1 1 zStream
        WriteResult.ok).exitCode = 0 ↔
      ((∃ t, LoadResult.ok tblConst = LoadResult.ok t ∧
        (injectOutliers (PyInput.df t) "x" 1 1 zStream).1.isSome) ∧
        WriteResult.ok = WriteResult.ok)) ∧
    ∃ t, LoadResult.ok tblConst = LoadResult.ok t ∧
      (injectOutliers (PyInput.df t) "x" 1 1 zStream).1.isSome :=
  ⟨(main_exit_codes (LoadResult.ok tblConst) "x" 1 1 zStream
      WriteResult.ok).1,
    (main_exit_codes (LoadResult.ok tblConst) "x" 1 1 zStream
      WriteResult.ok).2.2 (by decide)⟩

/-- C10: `inject_outliers` never mutates the caller's DataFrame: for
every input table and every parameter combination, valid or not, the
caller's table after the call is exactly the table it passed in — the
body only ever reads `df` and rebinds a local name to the freshly
constructed concatenation, as recorded in `injectOutliersCallerView`. -/
theorem inject_never_mutates_input (t : Table) (c : String) (n : ℤ)
    (m : ℚ) (z : ℕ → ℚ) :
    (injectOutliersCallerView t c n m z).2 = t := rfl
